import Mathlib

/-!
Verification of the myappassistant-cosmic desktop client.

Shallow embedding of the Rust sources under src/myappassistant-cosmic/src:
the API client (api/client.rs, api/error.rs, api/models.rs), the five page
modules (ui/pages/{dashboard,chat,pantry,ocr,settings}.rs), the top-level
application update (app.rs, core/messages.rs, core/state.rs), the settings
persistence (config.rs) and the date helper (utils/helpers.rs).

Modelling conventions:
  * The HTTP layer (reqwest) is external: an HTTP exchange is modelled by
    `SendResult` (the outcome of `.send().await`), and JSON or text body
    decoding (serde_json, `Response::text`) by an explicit decoder argument
    of type `String -> Except String A`.
  * Rust `u16` status codes are `Nat` reduced mod 2 ^ 16 where `as_u16()`
    is taken; `http::StatusCode` only holds codes 100..999, so the
    reduction is the identity on real codes.
  * `f32` fields are `Float`; `i32` fields are `Int`; `PathBuf` is
    `String`; `Utc::now()` is an explicit `now : Nat` argument.
  * GUI commands (`cosmic::app::Command`) are per-module inductive types
    recording exactly the asynchronous task each `Command::perform` call
    starts; the completion closures are separate named functions.
-/

set_option autoImplicit false
set_option linter.unusedVariables false
set_option linter.unnecessarySeqFocus false

namespace MyAppAssistant

/-- api/error.rs: the `ApiError` enum, six variants exactly as declared. -/
inductive ApiError where
  | RequestFailed (msg : String)
  | ParseFailed (msg : String)
  | HttpError (code : Nat)
  | Timeout
  | AuthenticationFailed
  | InvalidRequest (msg : String)
deriving DecidableEq, Repr

/-- The `Display` rendering of `ApiError` given by its `thiserror` message
attributes (used by `e.to_string()` and by `format!` at the call sites). -/
def ApiError.display : ApiError → String
  | ApiError.RequestFailed msg => "Network request failed: " ++ msg
  | ApiError.ParseFailed msg => "Failed to parse response: " ++ msg
  | ApiError.HttpError code => "HTTP error: " ++ toString code
  | ApiError.Timeout => "Request timeout"
  | ApiError.AuthenticationFailed => "Authentication failed"
  | ApiError.InvalidRequest msg => "Invalid request: " ++ msg

/-- An HTTP response as the client observes it: a status code and a raw body. -/
structure HttpResponse where
  status : Nat
  body : String
deriving DecidableEq, Repr

/-- The outcome of `.send().await` on a request: a transport error with its
rendered message, or a response. -/
inductive SendResult where
  | err (msg : String)
  | ok (response : HttpResponse)
deriving DecidableEq, Repr

/-- `http::StatusCode::is_success`: 2xx codes. -/
def isSuccessStatus (status : Nat) : Bool :=
  decide (200 ≤ status) && decide (status < 300)

/-- `StatusCode::as_u16` on the modelled status. -/
def statusAsU16 (status : Nat) : Nat :=
  status % 65536

/-- api/models.rs: `PantryProduct`. -/
structure PantryProduct where
  id : Int
  name : String
  unified_category : String
deriving DecidableEq, Repr

/-- api/models.rs: `FoodItem`. -/
structure FoodItem where
  id : String
  name : String
  category : String
  expiration_date : Option String
  quantity : Int
deriving DecidableEq, Repr

/-- api/models.rs: `ChatRequest`. -/
structure ChatRequest where
  prompt : String
  model : Option String
deriving DecidableEq, Repr

/-- api/models.rs: `MemoryChatRequest` (`HashMap<String, bool>` as an
association list). -/
structure MemoryChatRequest where
  message : String
  session_id : String
  use_perplexity : Option Bool
  use_bielik : Option Bool
  agent_states : Option (List (String × Bool))
deriving DecidableEq, Repr

/-- api/models.rs: `OCRItem` (`f32` as `Float`). -/
structure OCRItem where
  name : String
  quantity : Float
  price : Float
  category : Option String
deriving Repr

/-- api/models.rs: `OCRResult`. -/
structure OCRResult where
  items : List OCRItem
  total : Float
  store_name : Option String
  date : Option String
deriving Repr

/-- api/models.rs: `WeatherData`. -/
structure WeatherData where
  temperature : Float
  description : String
  humidity : Int
  wind_speed : Float
  location : String
deriving Repr

/-- The response-handling pattern shared verbatim by all five client
operations in api/client.rs: a send failure maps to `RequestFailed`, a
non-success status to `HttpError` of the `u16` code, a body that fails to
decode to `ParseFailed`, and otherwise the decoded value is returned. -/
def handleResponse {α : Type} (dec : String → Except String α) (send : SendResult) :
    Except ApiError α :=
  match send with
  | SendResult.err e => Except.error (ApiError.RequestFailed e)
  | SendResult.ok response =>
    if isSuccessStatus response.status then
      match dec response.body with
      | Except.ok v => Except.ok v
      | Except.error e => Except.error (ApiError.ParseFailed e)
    else
      Except.error (ApiError.HttpError (statusAsU16 response.status))

/-- api/client.rs `Client::get_pantry_products`: GET /api/pantry/products,
JSON-decoding the body to `Vec<PantryProduct>`. -/
def get_pantry_products (dec : String → Except String (List PantryProduct))
    (send : SendResult) : Except ApiError (List PantryProduct) :=
  match send with
  | SendResult.err e => Except.error (ApiError.RequestFailed e)
  | SendResult.ok response =>
    if isSuccessStatus response.status then
      match dec response.body with
      | Except.ok products => Except.ok products
      | Except.error e => Except.error (ApiError.ParseFailed e)
    else
      Except.error (ApiError.HttpError (statusAsU16 response.status))

/-- api/client.rs `Client::send_chat_message`: POST /api/chat with a
`ChatRequest` body; the response body is read as text. -/
def send_chat_message (prompt : String) (model : Option String)
    (dec : String → Except String String) (send : SendResult) :
    Except ApiError String :=
  let request : ChatRequest := { prompt := prompt, model := model }
  match send with
  | SendResult.err e => Except.error (ApiError.RequestFailed e)
  | SendResult.ok response =>
    if isSuccessStatus response.status then
      match dec response.body with
      | Except.ok text => Except.ok text
      | Except.error e => Except.error (ApiError.ParseFailed e)
    else
      Except.error (ApiError.HttpError (statusAsU16 response.status))

/-- api/client.rs `Client::send_memory_chat_message`: POST /api/memory_chat
with a `MemoryChatRequest` body; the response body is read as text. -/
def send_memory_chat_message (message : String) (session_id : String)
    (use_perplexity : Option Bool) (use_bielik : Option Bool)
    (dec : String → Except String String) (send : SendResult) :
    Except ApiError String :=
  let request : MemoryChatRequest :=
    { message := message, session_id := session_id,
      use_perplexity := use_perplexity, use_bielik := use_bielik,
      agent_states := none }
  match send with
  | SendResult.err e => Except.error (ApiError.RequestFailed e)
  | SendResult.ok response =>
    if isSuccessStatus response.status then
      match dec response.body with
      | Except.ok text => Except.ok text
      | Except.error e => Except.error (ApiError.ParseFailed e)
    else
      Except.error (ApiError.HttpError (statusAsU16 response.status))

/-- api/client.rs `Client::upload_receipt`: POST /api/ocr with a multipart
image, JSON-decoding the body to `OCRResult`. -/
def upload_receipt (image_data : List Nat)
    (dec : String → Except String OCRResult) (send : SendResult) :
    Except ApiError OCRResult :=
  match send with
  | SendResult.err e => Except.error (ApiError.RequestFailed e)
  | SendResult.ok response =>
    if isSuccessStatus response.status then
      match dec response.body with
      | Except.ok ocr_result => Except.ok ocr_result
      | Except.error e => Except.error (ApiError.ParseFailed e)
    else
      Except.error (ApiError.HttpError (statusAsU16 response.status))

/-- api/client.rs `Client::get_weather`: GET /api/weather, JSON-decoding the
body to `WeatherData`. -/
def get_weather (dec : String → Except String WeatherData)
    (send : SendResult) : Except ApiError WeatherData :=
  match send with
  | SendResult.err e => Except.error (ApiError.RequestFailed e)
  | SendResult.ok response =>
    if isSuccessStatus response.status then
      match dec response.body with
      | Except.ok weather => Except.ok weather
      | Except.error e => Except.error (ApiError.ParseFailed e)
    else
      Except.error (ApiError.HttpError (statusAsU16 response.status))

/-- The three error variants the client mapping can actually construct. -/
def isClientProduced (e : ApiError) : Prop :=
  (∃ s, e = ApiError.RequestFailed s) ∨ (∃ s, e = ApiError.ParseFailed s) ∨
    (∃ c, e = ApiError.HttpError c)

/-- Some `ApiError` is returned by one of the five client operations on some
input (any decoder, any send outcome, any request parameters). -/
def clientProducedError (e : ApiError) : Prop :=
  (∃ dec send, get_pantry_products dec send = Except.error e) ∨
  (∃ prompt model dec send, send_chat_message prompt model dec send = Except.error e) ∨
  (∃ msg sid up ub dec send,
      send_memory_chat_message msg sid up ub dec send = Except.error e) ∨
  (∃ img dec send, upload_receipt img dec send = Except.error e) ∨
  (∃ dec send, get_weather dec send = Except.error e)

lemma get_pantry_products_eq_handle (dec : String → Except String (List PantryProduct))
    (send : SendResult) : get_pantry_products dec send = handleResponse dec send := by
  cases send with
  | err e => rfl
  | ok r =>
    by_cases hs : isSuccessStatus r.status
    · cases hd : dec r.body <;> simp [get_pantry_products, handleResponse, hs, hd]
    · simp [get_pantry_products, handleResponse, hs]

lemma send_chat_message_eq_handle (prompt : String) (model : Option String)
    (dec : String → Except String String) (send : SendResult) :
    send_chat_message prompt model dec send = handleResponse dec send := by
  cases send with
  | err e => rfl
  | ok r =>
    by_cases hs : isSuccessStatus r.status
    · cases hd : dec r.body <;> simp [send_chat_message, handleResponse, hs, hd]
    · simp [send_chat_message, handleResponse, hs]

lemma send_memory_chat_message_eq_handle (message : String) (session_id : String)
    (use_perplexity : Option Bool) (use_bielik : Option Bool)
    (dec : String → Except String String) (send : SendResult) :
    send_memory_chat_message message session_id use_perplexity use_bielik dec send =
      handleResponse dec send := by
  cases send with
  | err e => rfl
  | ok r =>
    by_cases hs : isSuccessStatus r.status
    · cases hd : dec r.body <;> simp [send_memory_chat_message, handleResponse, hs, hd]
    · simp [send_memory_chat_message, handleResponse, hs]

lemma upload_receipt_eq_handle (image_data : List Nat)
    (dec : String → Except String OCRResult) (send : SendResult) :
    upload_receipt image_data dec send = handleResponse dec send := by
  cases send with
  | err e => rfl
  | ok r =>
    by_cases hs : isSuccessStatus r.status
    · cases hd : dec r.body <;> simp [upload_receipt, handleResponse, hs, hd]
    · simp [upload_receipt, handleResponse, hs]

lemma get_weather_eq_handle (dec : String → Except String WeatherData)
    (send : SendResult) : get_weather dec send = handleResponse dec send := by
  cases send with
  | err e => rfl
  | ok r =>
    by_cases hs : isSuccessStatus r.status
    · cases hd : dec r.body <;> simp [get_weather, handleResponse, hs, hd]
    · simp [get_weather, handleResponse, hs]

lemma handleResponse_ok_iff {α : Type} (dec : String → Except String α)
    (send : SendResult) (v : α) :
    handleResponse dec send = Except.ok v ↔
      ∃ r, send = SendResult.ok r ∧ isSuccessStatus r.status = true ∧
        dec r.body = Except.ok v := by
  cases send with
  | err e => simp [handleResponse]
  | ok r =>
    by_cases hs : isSuccessStatus r.status
    · cases hd : dec r.body with
      | ok w => simp [handleResponse, hs, hd]
      | error e => simp [handleResponse, hs, hd]
    · simp [handleResponse, hs]

lemma handleResponse_send_err {α : Type} (dec : String → Except String α)
    (e : String) :
    handleResponse dec (SendResult.err e) = Except.error (ApiError.RequestFailed e) :=
  rfl

lemma handleResponse_http_error {α : Type} (dec : String → Except String α)
    (r : HttpResponse) (hs : isSuccessStatus r.status = false) :
    handleResponse dec (SendResult.ok r) =
      Except.error (ApiError.HttpError (statusAsU16 r.status)) := by
  simp [handleResponse, hs]

lemma handleResponse_parse_error {α : Type} (dec : String → Except String α)
    (r : HttpResponse) (e : String) (hs : isSuccessStatus r.status = true)
    (hd : dec r.body = Except.error e) :
    handleResponse dec (SendResult.ok r) = Except.error (ApiError.ParseFailed e) := by
  simp [handleResponse, hs, hd]

lemma handleResponse_error_shape {α : Type} (dec : String → Except String α)
    (send : SendResult) (e : ApiError)
    (h : handleResponse dec send = Except.error e) : isClientProduced e := by
  cases send with
  | err msg =>
    simp only [handleResponse] at h
    exact Or.inl ⟨msg, by simpa using h.symm⟩
  | ok r =>
    by_cases hs : isSuccessStatus r.status
    · cases hd : dec r.body with
      | ok w => simp [handleResponse, hs, hd] at h
      | error msg =>
        simp only [handleResponse, hs, if_true, hd] at h
        exact Or.inr (Or.inl ⟨msg, by simpa using h.symm⟩)
    · simp only [handleResponse, hs, if_false] at h
      exact Or.inr (Or.inr ⟨statusAsU16 r.status, by simpa using h.symm⟩)

lemma isClientProduced_excludes (e : ApiError) (h : isClientProduced e) :
    ¬ (e = ApiError.Timeout ∨ e = ApiError.AuthenticationFailed ∨
        ∃ s, e = ApiError.InvalidRequest s) := by
  rcases h with ⟨s, rfl⟩ | ⟨s, rfl⟩ | ⟨c, rfl⟩ <;>
    rintro (h | h | ⟨t, h⟩) <;> simp at h

/-- The chat response shape as ui/pages/chat.rs constructs and reads it
(fields `response`, `agent_used`, `confidence`). api/models.rs declares
`ChatResponse` with fields `response` and `model`; the page code is the
authority for the page behaviour modelled here, so its field set is used. -/
structure ChatResponse where
  response : String
  agent_used : String
  confidence : Float
deriving Repr

/-- api/models.rs `ChatMessage`, imported in chat.rs as `ApiChatMessage`
(`DateTime<Utc>` as `Nat`). -/
structure ApiChatMessage where
  content : String
  is_user : Bool
  timestamp : Nat
  agent : Option String
deriving DecidableEq, Repr

/-- ui/pages/dashboard.rs `State`. -/
structure DashboardState where
  weather : Option WeatherData
  recent_activities : List String
  loading : Bool
deriving Repr

/-- core/messages.rs `Page`. -/
inductive Page where
  | Dashboard
  | Chat
  | Pantry
  | OCR
  | Settings
deriving DecidableEq, Repr

/-- ui/pages/dashboard.rs `DashboardMessage`. -/
inductive DashboardMessage where
  | WeatherLoaded (weather : WeatherData)
  | RefreshWeather
  | NavigateToPage (page : Page)
deriving Repr

/-- The asynchronous task a dashboard update starts: nothing, or the
`client.get_weather()` call of the `RefreshWeather` arm. -/
inductive DashCmd where
  | none
  | getWeather
deriving DecidableEq, Repr

/-- HTTP requests fired by a dashboard command. -/
def DashCmd.httpRequests : DashCmd → Nat
  | DashCmd.none => 0
  | DashCmd.getWeather => 1

/-- ui/pages/dashboard.rs `update`. -/
def dashboardUpdate (state : DashboardState) (message : DashboardMessage) :
    DashboardState × DashCmd :=
  match message with
  | DashboardMessage.WeatherLoaded weather =>
    ({ state with weather := some weather, loading := false }, DashCmd.none)
  | DashboardMessage.RefreshWeather =>
    ({ state with loading := true }, DashCmd.getWeather)
  | DashboardMessage.NavigateToPage _ => (state, DashCmd.none)

/-- The completion closure of the dashboard weather call: a success delivers
`WeatherLoaded`, any error is discarded and `RefreshWeather` re-dispatched. -/
def dashboardOnWeather : Except ApiError WeatherData → DashboardMessage
  | Except.ok weather => DashboardMessage.WeatherLoaded weather
  | Except.error _ => DashboardMessage.RefreshWeather

/-- ui/pages/pantry.rs `State`. -/
structure PantryState where
  items : List FoodItem
  filter_text : String
  loading : Bool
deriving DecidableEq, Repr

/-- ui/pages/pantry.rs `PantryMessage`. -/
inductive PantryMessage where
  | ItemsLoaded (items : List FoodItem)
  | LoadItems
  | FilterChanged (text : String)
  | AddItem (item : FoodItem)
  | RemoveItem (id : String)
deriving DecidableEq, Repr

/-- The asynchronous task a pantry update starts. The `LoadItems` arm calls
`client.get_food_items()`: client.rs declares no such method (its pantry
call is `get_pantry_products`), so the task is recorded by the name the call
site uses and counts as one HTTP request. -/
inductive PantryCmd where
  | none
  | getFoodItems
deriving DecidableEq, Repr

/-- HTTP requests fired by a pantry command. -/
def PantryCmd.httpRequests : PantryCmd → Nat
  | PantryCmd.none => 0
  | PantryCmd.getFoodItems => 1

/-- ui/pages/pantry.rs `update`. -/
def pantryUpdate (state : PantryState) (message : PantryMessage) :
    PantryState × PantryCmd :=
  match message with
  | PantryMessage.ItemsLoaded items =>
    ({ state with items := items, loading := false }, PantryCmd.none)
  | PantryMessage.LoadItems =>
    ({ state with loading := true }, PantryCmd.getFoodItems)
  | PantryMessage.FilterChanged text =>
    ({ state with filter_text := text }, PantryCmd.none)
  | PantryMessage.AddItem _ => (state, PantryCmd.none)
  | PantryMessage.RemoveItem _ => (state, PantryCmd.none)

/-- The completion closure of the pantry load: a success delivers the items,
any error delivers `ItemsLoaded(vec![])`. -/
def pantryOnItems : Except ApiError (List FoodItem) → PantryMessage
  | Except.ok items => PantryMessage.ItemsLoaded items
  | Except.error _ => PantryMessage.ItemsLoaded []

/-- ui/pages/ocr.rs `State` (`PathBuf` as `String`). -/
structure OcrState where
  result : Option OCRResult
  image_path : Option String
  loading : Bool
  error : Option String
deriving Repr

/-- ui/pages/ocr.rs `OCRMessage`. -/
inductive OCRMessage where
  | OpenCamera
  | SelectImage
  | ImageSelected (path : String)
  | ProcessImage (image_data : List Nat)
  | ResultReceived (result : OCRResult)
  | Error (error : String)
deriving Repr

/-- The asynchronous task an OCR update starts: the `ImageSelected` arm runs
an async block that merely yields `vec![]` (no HTTP), the `ProcessImage` arm
calls `client.upload_receipt`. -/
inductive OcrCmd where
  | none
  | readImageBytes (path : String)
  | uploadReceipt (image_data : List Nat)
deriving DecidableEq, Repr

/-- HTTP requests fired by an OCR command. -/
def OcrCmd.httpRequests : OcrCmd → Nat
  | OcrCmd.none => 0
  | OcrCmd.readImageBytes _ => 0
  | OcrCmd.uploadReceipt _ => 1

/-- ui/pages/ocr.rs `update`. -/
def ocrUpdate (state : OcrState) (message : OCRMessage) : OcrState × OcrCmd :=
  match message with
  | OCRMessage.OpenCamera =>
    ({ state with error := some "Camera functionality not implemented yet." },
     OcrCmd.none)
  | OCRMessage.SelectImage =>
    ({ state with error := some "File picker not implemented yet." }, OcrCmd.none)
  | OCRMessage.ImageSelected path =>
    ({ state with image_path := some path }, OcrCmd.readImageBytes path)
  | OCRMessage.ProcessImage image_data =>
    ({ state with loading := true, error := none }, OcrCmd.uploadReceipt image_data)
  | OCRMessage.ResultReceived result =>
    ({ state with result := some result, loading := false }, OcrCmd.none)
  | OCRMessage.Error error =>
    ({ state with error := some error, loading := false }, OcrCmd.none)

/-- The value the `ImageSelected` placeholder task yields (`vec![]`), fed to
its continuation `OCRMessage::ProcessImage`. -/
def ocrReadImagePlaceholder : List Nat := []

/-- The completion closure of `upload_receipt`: a success delivers
`ResultReceived`, an error delivers `Error(e.to_string())`. -/
def ocrOnUpload : Except ApiError OCRResult → OCRMessage
  | Except.ok ocr_result => OCRMessage.ResultReceived ocr_result
  | Except.error e => OCRMessage.Error (ApiError.display e)

/-- ui/pages/chat.rs `State`. -/
structure ChatState where
  input_text : String
  messages : List ApiChatMessage
  loading : Bool
deriving DecidableEq, Repr

/-- ui/pages/chat.rs `ChatMessage` (the page message enum; the model struct
of the same Rust name is `ApiChatMessage` here, as chat.rs itself aliases it). -/
inductive ChatMessage where
  | InputChanged (text : String)
  | SendMessage
  | MessageReceived (response : ChatResponse)
  | FocusInput
  | ClearChat
deriving Repr

/-- The asynchronous task a chat update starts: the `SendMessage` arm calls
`client.send_chat_message(&message_text, context)` (the context string is
passed in the position of the `model` argument, exactly as the source does). -/
inductive ChatCmd where
  | none
  | sendChatMessage (prompt : String) (context : Option String)
deriving DecidableEq, Repr

/-- HTTP requests fired by a chat command. -/
def ChatCmd.httpRequests : ChatCmd → Nat
  | ChatCmd.none => 0
  | ChatCmd.sendChatMessage _ _ => 1

/-- Rust `char::is_whitespace`: the Unicode `White_Space` property
(U+0009..U+000D, U+0020, U+0085, U+00A0, U+1680, U+2000..U+200A, U+2028,
U+2029, U+202F, U+205F, U+3000). Rust `str::trim` and chrono's field-level
`trim_start` both use this predicate. -/
def isRustWhitespace (c : Char) : Bool :=
  let n := c.toNat
  (decide (9 ≤ n) && decide (n ≤ 13)) || decide (n = 32) || decide (n = 133) ||
    decide (n = 160) || decide (n = 5760) ||
    (decide (8192 ≤ n) && decide (n ≤ 8202)) || decide (n = 8232) ||
    decide (n = 8233) || decide (n = 8239) || decide (n = 8287) ||
    decide (n = 12288)

/-- Rust `str::trim().is_empty()`: true exactly when every character of the
string has the Unicode `White_Space` property (trimming removes leading and
trailing whitespace, so the result is empty precisely on all-whitespace
input). -/
def strTrimIsEmpty (s : String) : Bool :=
  s.data.all fun c => isRustWhitespace c

/-- ui/pages/chat.rs `update` (`Utc::now()` is the explicit `now`). -/
def chatUpdate (state : ChatState) (message : ChatMessage) (now : Nat) :
    ChatState × ChatCmd :=
  match message with
  | ChatMessage.InputChanged text =>
    ({ state with input_text := text }, ChatCmd.none)
  | ChatMessage.SendMessage =>
    if strTrimIsEmpty state.input_text || state.loading then
      (state, ChatCmd.none)
    else
      let user_message : ApiChatMessage :=
        { content := state.input_text, is_user := true, timestamp := now,
          agent := none }
      let messages := state.messages ++ [user_message]
      let message_text := state.input_text
      let context : Option String :=
        if messages.length > 1 then
          some (String.intercalate "\n"
            ((messages.reverse.take 5).reverse.map fun msg =>
              if msg.is_user then "User: " ++ msg.content
              else "Assistant: " ++ msg.content))
        else
          none
      ({ input_text := "", messages := messages, loading := true },
       ChatCmd.sendChatMessage message_text context)
  | ChatMessage.MessageReceived response =>
    let assistant_message : ApiChatMessage :=
      { content := response.response, is_user := false, timestamp := now,
        agent := some response.agent_used }
    ({ state with
        messages := state.messages ++ [assistant_message],
        loading := false }, ChatCmd.none)
  | ChatMessage.FocusInput => (state, ChatCmd.none)
  | ChatMessage.ClearChat => ({ state with messages := [] }, ChatCmd.none)

/-- The completion closure of the chat send: a success delivers the response
as `MessageReceived`; an error is wrapped into a fake `ChatResponse` whose
text renders the error, agent "error", confidence 0.0. (In the source the
task yields the `String` of `send_chat_message` yet the closure treats the
payload as a `ChatResponse`; the closure is modelled as written.) -/
def chatOnResult : Except ApiError ChatResponse → ChatMessage
  | Except.ok response => ChatMessage.MessageReceived response
  | Except.error e =>
    ChatMessage.MessageReceived
      { response := "Error: " ++ ApiError.display e, agent_used := "error",
        confidence := 0.0 }

/-- config.rs `ThemeMode`. -/
inductive ThemeMode where
  | Light
  | Dark
  | System
deriving DecidableEq, Repr

/-- config.rs `AppSettings` (`PathBuf` as `String`). -/
structure AppSettings where
  backend_url : String
  theme_mode : ThemeMode
  notifications_enabled : Bool
  auto_sync : Bool
  ocr_upload_dir : String
deriving DecidableEq, Repr

/-- config.rs `impl Default for AppSettings`. -/
def AppSettings.default : AppSettings :=
  { backend_url := "http://localhost:8000", theme_mode := ThemeMode.System,
    notifications_enabled := true, auto_sync := true,
    ocr_upload_dir := "/tmp/myappassistant/ocr" }

/-- ui/pages/settings.rs `State`. -/
structure SettingsState where
  edited_settings : Option AppSettings
  saving : Bool
deriving DecidableEq, Repr

/-- ui/pages/settings.rs `SettingsMessage`. -/
inductive SettingsMessage where
  | EditBackendUrl (url : String)
  | ToggleThemeMode (mode : ThemeMode)
  | ToggleNotifications (enabled : Bool)
  | ToggleAutoSync (enabled : Bool)
  | EditOcrUploadDir (dir : String)
  | SaveSettings
  | ResetSettings
deriving DecidableEq, Repr

/-- The settings update never starts an asynchronous task. -/
inductive SettingsCmd where
  | none
deriving DecidableEq, Repr

/-- HTTP requests fired by a settings command. -/
def SettingsCmd.httpRequests : SettingsCmd → Nat
  | SettingsCmd.none => 0

/-- The outcome of one settings update: the new page state, the new live
settings (the `&mut AppSettings` the caller passed), the command, the values
written to the platform config store (`AppSettings::save` calls, in order),
and the lines printed to stderr. -/
structure SettingsUpdateResult where
  state : SettingsState
  settings : AppSettings
  cmd : SettingsCmd
  writes : List AppSettings
  log : List String
deriving DecidableEq, Repr

/-- ui/pages/settings.rs `update`. The config store is external, so the
outcome of the `settings.save()` call (config.rs, a `cosmic_config` write)
is the explicit `saveResult` argument; on an `Err` the source only prints
"Failed to save settings: {e}" to stderr. -/
def settingsUpdate (state0 : SettingsState) (message : SettingsMessage)
    (settings : AppSettings) (saveResult : Except String Unit) :
    SettingsUpdateResult :=
  let state :=
    match state0.edited_settings with
    | none => { state0 with edited_settings := some settings }
    | some _ => state0
  let edited :=
    match state.edited_settings with
    | some e => e
    | none => settings
  match message with
  | SettingsMessage.EditBackendUrl url =>
    ⟨{ state with edited_settings := some { edited with backend_url := url } },
     settings, SettingsCmd.none, [], []⟩
  | SettingsMessage.ToggleThemeMode mode =>
    ⟨{ state with edited_settings := some { edited with theme_mode := mode } },
     settings, SettingsCmd.none, [], []⟩
  | SettingsMessage.ToggleNotifications enabled =>
    ⟨{ state with
       edited_settings := some { edited with notifications_enabled := enabled } },
     settings, SettingsCmd.none, [], []⟩
  | SettingsMessage.ToggleAutoSync enabled =>
    ⟨{ state with edited_settings := some { edited with auto_sync := enabled } },
     settings, SettingsCmd.none, [], []⟩
  | SettingsMessage.EditOcrUploadDir dir =>
    ⟨{ state with edited_settings := some { edited with ocr_upload_dir := dir } },
     settings, SettingsCmd.none, [], []⟩
  | SettingsMessage.SaveSettings =>
    let newSettings := edited
    let log :=
      match saveResult with
      | Except.ok _ => []
      | Except.error e => ["Failed to save settings: " ++ e]
    ⟨state, newSettings, SettingsCmd.none, [newSettings], log⟩
  | SettingsMessage.ResetSettings =>
    ⟨{ state with edited_settings := some AppSettings.default },
     settings, SettingsCmd.none, [], []⟩

/-- core/messages.rs `Message`, the top-level application message enum. -/
inductive Message where
  | NavigateTo (page : Page)
  | Dashboard (msg : DashboardMessage)
  | Chat (msg : ChatMessage)
  | Pantry (msg : PantryMessage)
  | OCR (msg : OCRMessage)
  | Settings (msg : SettingsMessage)
  | Config (settings : AppSettings)
  | Close
  | Minimize
  | Error (msg : String)
deriving Repr

/-- core/state.rs `AppState` (`HashMap<String, bool>` as an association
list; never touched by any update). -/
structure AppState where
  current_page : Page
  settings : AppSettings
  loading_states : List (String × Bool)
  error_state : Option String
  dashboard_state : DashboardState
  chat_state : ChatState
  pantry_state : PantryState
  ocr_state : OcrState
  settings_state : SettingsState
deriving Repr

/-- core/state.rs `impl Default for AppState`. -/
def AppState.default : AppState :=
  { current_page := Page.Dashboard, settings := AppSettings.default,
    loading_states := [], error_state := none,
    dashboard_state := { weather := none, recent_activities := [], loading := false },
    chat_state := { input_text := "", messages := [], loading := false },
    pantry_state := { items := [], filter_text := "", loading := false },
    ocr_state := { result := none, image_path := none, loading := false, error := none },
    settings_state := { edited_settings := none, saving := false } }

/-- app.rs `MyAppAssistant` (without the toolkit core): the active nav-bar
id, the application state, and the API client as its base URL. -/
structure App where
  nav_active : String
  state : AppState
  api_base_url : String
deriving Repr

/-- The task a top-level command starts: a page command mapped into the
application message type, one of the two nav-selection HTTP calls of
`on_nav_select`, or a window action. -/
inductive AppCmd where
  | none
  | dashboard (cmd : DashCmd)
  | chat (cmd : ChatCmd)
  | pantry (cmd : PantryCmd)
  | ocr (cmd : OcrCmd)
  | settings (cmd : SettingsCmd)
  | navGetWeather
  | navGetFoodItems
  | quit
  | minimize
deriving DecidableEq, Repr

/-- app.rs `on_nav_select` completion closure for the dashboard weather
call: a success becomes a dashboard message, an error a top-level
`Message::Error` with the rendered text. -/
def navOnWeather : Except ApiError WeatherData → Message
  | Except.ok weather => Message.Dashboard (DashboardMessage.WeatherLoaded weather)
  | Except.error e => Message.Error (ApiError.display e)

/-- app.rs `on_nav_select` completion closure for the pantry items call. -/
def navOnFoodItems : Except ApiError (List FoodItem) → Message
  | Except.ok items => Message.Pantry (PantryMessage.ItemsLoaded items)
  | Except.error e => Message.Error (ApiError.display e)

/-- app.rs `on_nav_select`: activates the nav item, sets the current page
and for the dashboard and pantry ids starts the matching HTTP call. -/
def onNavSelect (app0 : App) (id : String) : App × AppCmd :=
  let app := { app0 with nav_active := id }
  if id = "dashboard" then
    ({ app with state := { app.state with current_page := Page.Dashboard } },
     AppCmd.navGetWeather)
  else if id = "chat" then
    ({ app with state := { app.state with current_page := Page.Chat } },
     AppCmd.none)
  else if id = "pantry" then
    ({ app with state := { app.state with current_page := Page.Pantry } },
     AppCmd.navGetFoodItems)
  else if id = "ocr" then
    ({ app with state := { app.state with current_page := Page.OCR } },
     AppCmd.none)
  else if id = "settings" then
    ({ app with state := { app.state with current_page := Page.Settings } },
     AppCmd.none)
  else
    (app, AppCmd.none)

/-- app.rs `MyAppAssistant::update`. `now` stands for `Utc::now()` inside
the chat update and `saveResult` for the config-store write outcome inside
the settings update; the settings branch applies the state and settings
components of `settingsUpdate` exactly as the source passes
`&mut self.state.settings` to `settings::update`. -/
def appUpdate (app : App) (message : Message) (now : Nat)
    (saveResult : Except String Unit) : App × AppCmd :=
  match message with
  | Message.NavigateTo page =>
    let id :=
      match page with
      | Page.Dashboard => "dashboard"
      | Page.Chat => "chat"
      | Page.Pantry => "pantry"
      | Page.OCR => "ocr"
      | Page.Settings => "settings"
    onNavSelect app id
  | Message.Dashboard msg =>
    let r := dashboardUpdate app.state.dashboard_state msg
    ({ app with state := { app.state with dashboard_state := r.fst } },
     AppCmd.dashboard r.snd)
  | Message.Chat msg =>
    let r := chatUpdate app.state.chat_state msg now
    ({ app with state := { app.state with chat_state := r.fst } },
     AppCmd.chat r.snd)
  | Message.Pantry msg =>
    let r := pantryUpdate app.state.pantry_state msg
    ({ app with state := { app.state with pantry_state := r.fst } },
     AppCmd.pantry r.snd)
  | Message.OCR msg =>
    let r := ocrUpdate app.state.ocr_state msg
    ({ app with state := { app.state with ocr_state := r.fst } },
     AppCmd.ocr r.snd)
  | Message.Settings msg =>
    let r := settingsUpdate app.state.settings_state msg app.state.settings saveResult
    ({ app with state := { app.state with
                            settings_state := r.state,
                            settings := r.settings } },
     AppCmd.settings r.cmd)
  | Message.Config new_settings =>
    ({ app with state := { app.state with settings := new_settings },
                api_base_url := new_settings.backend_url }, AppCmd.none)
  | Message.Close => (app, AppCmd.quit)
  | Message.Minimize => (app, AppCmd.minimize)
  | Message.Error error_message =>
    ({ app with state := { app.state with error_state := some error_message } },
     AppCmd.none)

/-- Drop the leading Unicode-whitespace characters of a character list
(chrono calls `trim_start`, i.e. Rust `char::is_whitespace`, before each
numeric field while parsing). -/
def dropLeadingWs : List Char → List Char
  | [] => []
  | c :: rest => if isRustWhitespace c then dropLeadingWs rest else c :: rest

/-- Take at most `max` leading ASCII digits. -/
def takeDigitsUpTo : Nat → List Char → List Char × List Char
  | 0, s => ([], s)
  | _ + 1, [] => ([], [])
  | max + 1, c :: rest =>
    if c.isDigit then
      let p := takeDigitsUpTo max rest
      (c :: p.fst, p.snd)
    else
      ([], c :: rest)

/-- Take every leading ASCII digit. -/
def takeDigitsAll : List Char → List Char × List Char
  | [] => ([], [])
  | c :: rest =>
    if c.isDigit then
      let p := takeDigitsAll rest
      (c :: p.fst, p.snd)
    else
      ([], c :: rest)

/-- The value of a digit string. -/
def digitsVal (ds : List Char) : Nat :=
  ds.foldl (fun acc c => acc * 10 + (c.toNat - 48)) 0

/-- chrono `scan::number` with minimum width 1 and maximum width `max`:
at least one digit or failure. -/
def scanNumberUpTo (max : Nat) (s : List Char) : Option (Nat × List Char) :=
  let p := takeDigitsUpTo max s
  if p.fst.isEmpty then none else some (digitsVal p.fst, p.snd)

/-- chrono `scan::number` with no maximum width (the signed-year branch). -/
def scanNumberAll (s : List Char) : Option (Nat × List Char) :=
  let p := takeDigitsAll s
  if p.fst.isEmpty then none else some (digitsVal p.fst, p.snd)

/-- chrono parsing of the `%Y` item: leading whitespace skipped; an
optional sign admits any number of digits, an unsigned year at most four.
(chrono additionally fails on `i64` overflow of the digit value; such a
value is out of the calendar year range below, so the outcome agrees.) -/
def parseYearField (s0 : List Char) : Option (Int × List Char) :=
  let s := dropLeadingWs s0
  match s with
  | '-' :: rest =>
    match scanNumberAll rest with
    | some p => some (-(Int.ofNat p.fst), p.snd)
    | none => none
  | '+' :: rest =>
    match scanNumberAll rest with
    | some p => some (Int.ofNat p.fst, p.snd)
    | none => none
  | _ =>
    match scanNumberUpTo 4 s with
    | some p => some (Int.ofNat p.fst, p.snd)
    | none => none

/-- chrono parsing of the `%m` and `%d` items: leading whitespace skipped,
one or two digits, no sign. -/
def parseTwoDigitField (s : List Char) : Option (Nat × List Char) :=
  scanNumberUpTo 2 (dropLeadingWs s)

/-- A literal item of the format string must match exactly. -/
def expectChar (c : Char) : List Char → Option (List Char)
  | [] => none
  | x :: rest => if x = c then some rest else none

/-- chrono `NaiveDate`: a calendar date. -/
structure NaiveDate where
  year : Int
  month : Nat
  day : Nat
deriving DecidableEq, Repr

/-- Proleptic Gregorian leap year, as chrono computes it. -/
def isLeapYear (y : Int) : Bool :=
  decide (y % 4 = 0) && (decide (y % 100 ≠ 0) || decide (y % 400 = 0))

/-- Days of a month of a year, months numbered 1..12. -/
def daysInMonth (y : Int) (m : Nat) : Nat :=
  match m with
  | 1 => 31
  | 2 => if isLeapYear y then 29 else 28
  | 3 => 31
  | 4 => 30
  | 5 => 31
  | 6 => 30
  | 7 => 31
  | 8 => 31
  | 9 => 30
  | 10 => 31
  | 11 => 30
  | 12 => 31
  | _ => 0

/-- chrono `NaiveDate::from_ymd_opt`: month and day valid for the calendar
and the year within the supported range (-262144..=262143). -/
def fromYmdOpt (y : Int) (m d : Nat) : Option NaiveDate :=
  if -262144 ≤ y ∧ y ≤ 262143 ∧ 1 ≤ m ∧ m ≤ 12 ∧ 1 ≤ d ∧ d ≤ daysInMonth y m then
    some { year := y, month := m, day := d }
  else
    none

/-- chrono `NaiveDate::parse_from_str(date_str, "%Y-%m-%d")`: the five
format items in order, the whole input consumed, then the calendar check. -/
def parse_from_str_ymd (date_str : String) : Option NaiveDate :=
  match parseYearField date_str.data with
  | none => none
  | some py =>
    match expectChar '-' py.snd with
    | none => none
    | some s2 =>
      match parseTwoDigitField s2 with
      | none => none
      | some pm =>
        match expectChar '-' pm.snd with
        | none => none
        | some s4 =>
          match parseTwoDigitField s4 with
          | none => none
          | some pd =>
            if pd.snd.isEmpty then fromYmdOpt py.fst pm.fst pd.fst else none

/-- Zero-pad a number to two digits (`%d`). -/
def pad2 (n : Nat) : String :=
  if n < 10 then "0" ++ toString n else toString n

/-- Zero-pad a number to at least four digits (`%Y` magnitude). -/
def pad4 (n : Nat) : String :=
  if n < 10 then "000" ++ toString n
  else if n < 100 then "00" ++ toString n
  else if n < 1000 then "0" ++ toString n
  else toString n

/-- `%b`: the abbreviated English month name. -/
def monthAbbrev : Nat → String
  | 1 => "Jan"
  | 2 => "Feb"
  | 3 => "Mar"
  | 4 => "Apr"
  | 5 => "May"
  | 6 => "Jun"
  | 7 => "Jul"
  | 8 => "Aug"
  | 9 => "Sep"
  | 10 => "Oct"
  | 11 => "Nov"
  | 12 => "Dec"
  | _ => ""

/-- `%Y` when formatting, as chrono writes a numeric year: a year in
0..10000 is zero-padded to four digits; any other year gets an explicit
sign (`+` included for years of five or more digits), the magnitude
zero-padded so that sign plus digits fill at least five columns. -/
def formatYearY (y : Int) : String :=
  if 0 ≤ y ∧ y < 10000 then pad4 y.toNat
  else if y < 0 then "-" ++ pad4 y.natAbs
  else "+" ++ pad4 y.toNat

/-- `date.format("%d %b %Y").to_string()`. -/
def formatPretty (date : NaiveDate) : String :=
  pad2 date.day ++ " " ++ monthAbbrev date.month ++ " " ++ formatYearY date.year

/-- utils/helpers.rs `format_date`: render a `%Y-%m-%d` date as
`%d %b %Y`, and return any other input unchanged. -/
def format_date (date_str : String) : String :=
  match parse_from_str_ymd date_str with
  | some date => formatPretty date
  | none => date_str

lemma clientProducedError_shape (e : ApiError) (h : clientProducedError e) :
    isClientProduced e := by
  rcases h with ⟨dec, send, heq⟩ | ⟨p, m, dec, send, heq⟩ |
    ⟨m, sid, up, ub, dec, send, heq⟩ | ⟨img, dec, send, heq⟩ | ⟨dec, send, heq⟩
  · rw [get_pantry_products_eq_handle] at heq
    exact handleResponse_error_shape dec send e heq
  · rw [send_chat_message_eq_handle] at heq
    exact handleResponse_error_shape dec send e heq
  · rw [send_memory_chat_message_eq_handle] at heq
    exact handleResponse_error_shape dec send e heq
  · rw [upload_receipt_eq_handle] at heq
    exact handleResponse_error_shape dec send e heq
  · rw [get_weather_eq_handle] at heq
    exact handleResponse_error_shape dec send e heq

/-- C1: each of the five client operations returns `Ok` with the decoded
body exactly when the send succeeded, the status was a success status and
the body decoded; otherwise the error is, uniformly, `RequestFailed` of the
transport error when the send fails, `HttpError` of the `u16` status code
when the status is not a success, and `ParseFailed` when the body fails to
decode. -/
theorem c1_client_uniform_error_mapping :
    ((∀ dec send v, get_pantry_products dec send = Except.ok v ↔
        ∃ r, send = SendResult.ok r ∧ isSuccessStatus r.status = true ∧
          dec r.body = Except.ok v) ∧
     (∀ dec e, get_pantry_products dec (SendResult.err e) =
        Except.error (ApiError.RequestFailed e)) ∧
     (∀ dec r, isSuccessStatus r.status = false →
        get_pantry_products dec (SendResult.ok r) =
          Except.error (ApiError.HttpError (statusAsU16 r.status))) ∧
     (∀ dec r e, isSuccessStatus r.status = true → dec r.body = Except.error e →
        get_pantry_products dec (SendResult.ok r) =
          Except.error (ApiError.ParseFailed e))) ∧
    ((∀ prompt model dec send v,
        send_chat_message prompt model dec send = Except.ok v ↔
          ∃ r, send = SendResult.ok r ∧ isSuccessStatus r.status = true ∧
            dec r.body = Except.ok v) ∧
     (∀ prompt model dec e, send_chat_message prompt model dec (SendResult.err e) =
        Except.error (ApiError.RequestFailed e)) ∧
     (∀ prompt model dec r, isSuccessStatus r.status = false →
        send_chat_message prompt model dec (SendResult.ok r) =
          Except.error (ApiError.HttpError (statusAsU16 r.status))) ∧
     (∀ prompt model dec r e, isSuccessStatus r.status = true →
        dec r.body = Except.error e →
        send_chat_message prompt model dec (SendResult.ok r) =
          Except.error (ApiError.ParseFailed e))) ∧
    ((∀ msg sid up ub dec send v,
        send_memory_chat_message msg sid up ub dec send = Except.ok v ↔
          ∃ r, send = SendResult.ok r ∧ isSuccessStatus r.status = true ∧
            dec r.body = Except.ok v) ∧
     (∀ msg sid up ub dec e,
        send_memory_chat_message msg sid up ub dec (SendResult.err e) =
          Except.error (ApiError.RequestFailed e)) ∧
     (∀ msg sid up ub dec r, isSuccessStatus r.status = false →
        send_memory_chat_message msg sid up ub dec (SendResult.ok r) =
          Except.error (ApiError.HttpError (statusAsU16 r.status))) ∧
     (∀ msg sid up ub dec r e, isSuccessStatus r.status = true →
        dec r.body = Except.error e →
        send_memory_chat_message msg sid up ub dec (SendResult.ok r) =
          Except.error (ApiError.ParseFailed e))) ∧
    ((∀ img dec send v, upload_receipt img dec send = Except.ok v ↔
        ∃ r, send = SendResult.ok r ∧ isSuccessStatus r.status = true ∧
          dec r.body = Except.ok v) ∧
     (∀ img dec e, upload_receipt img dec (SendResult.err e) =
        Except.error (ApiError.RequestFailed e)) ∧
     (∀ img dec r, isSuccessStatus r.status = false →
        upload_receipt img dec (SendResult.ok r) =
          Except.error (ApiError.HttpError (statusAsU16 r.status))) ∧
     (∀ img dec r e, isSuccessStatus r.status = true → dec r.body = Except.error e →
        upload_receipt img dec (SendResult.ok r) =
          Except.error (ApiError.ParseFailed e))) ∧
    ((∀ dec send v, get_weather dec send = Except.ok v ↔
        ∃ r, send = SendResult.ok r ∧ isSuccessStatus r.status = true ∧
          dec r.body = Except.ok v) ∧
     (∀ dec e, get_weather dec (SendResult.err e) =
        Except.error (ApiError.RequestFailed e)) ∧
     (∀ dec r, isSuccessStatus r.status = false →
        get_weather dec (SendResult.ok r) =
          Except.error (ApiError.HttpError (statusAsU16 r.status))) ∧
     (∀ dec r e, isSuccessStatus r.status = true → dec r.body = Except.error e →
        get_weather dec (SendResult.ok r) =
          Except.error (ApiError.ParseFailed e))) := by
  refine ⟨⟨?_, ?_, ?_, ?_⟩, ⟨?_, ?_, ?_, ?_⟩, ⟨?_, ?_, ?_, ?_⟩,
    ⟨?_, ?_, ?_, ?_⟩, ⟨?_, ?_, ?_, ?_⟩⟩ <;> intros <;>
    simp only [get_pantry_products_eq_handle, send_chat_message_eq_handle,
      send_memory_chat_message_eq_handle, upload_receipt_eq_handle,
      get_weather_eq_handle] <;>
    first
    | exact handleResponse_ok_iff _ _ _
    | rfl
    | exact handleResponse_http_error _ _ (by assumption)
    | exact handleResponse_parse_error _ _ _ (by assumption) (by assumption)

/-- C2 counterexample: no input to any of the five client operations
produces the `Timeout`, `AuthenticationFailed` or `InvalidRequest` variant,
so the client error mapping does not distinguish all six categories. -/
theorem c2_counterexample_unproduced_variants :
    (∃ e : ApiError, clientProducedError e ∧
        (e = ApiError.Timeout ∨ e = ApiError.AuthenticationFailed ∨
          ∃ s, e = ApiError.InvalidRequest s)) ↔ False := by
  constructor
  · rintro ⟨e, hp, hforms⟩
    exact isClientProduced_excludes e (clientProducedError_shape e hp) hforms
  · exact False.elim

/-- C2 amended: the error type is a closed enum with exactly the six
categories, but the client mapping produces only `RequestFailed`,
`ParseFailed` and `HttpError`; a request whose send fails (as a timed-out
request does) is returned as `RequestFailed` with the transport message, so
timeout, authentication and invalid-request failures are never surfaced as
their own variants. -/
theorem c2_amended_closed_enum_three_variants_produced :
    (∀ e : ApiError,
        (∃ s, e = ApiError.RequestFailed s) ∨ (∃ s, e = ApiError.ParseFailed s) ∨
        (∃ c, e = ApiError.HttpError c) ∨ e = ApiError.Timeout ∨
        e = ApiError.AuthenticationFailed ∨ (∃ s, e = ApiError.InvalidRequest s)) ∧
    (∀ e, clientProducedError e → isClientProduced e) ∧
    (∀ dec msg, get_weather dec (SendResult.err msg) =
        Except.error (ApiError.RequestFailed msg)) := by
  refine ⟨?_, clientProducedError_shape, ?_⟩
  · intro e
    cases e <;> simp
  · intro dec msg
    rw [get_weather_eq_handle]
    rfl

lemma dashCmd_http_le_one (c : DashCmd) : DashCmd.httpRequests c ≤ 1 := by
  cases c <;> simp [DashCmd.httpRequests]

lemma chatCmd_http_le_one (c : ChatCmd) : ChatCmd.httpRequests c ≤ 1 := by
  cases c <;> simp [ChatCmd.httpRequests]

lemma pantryCmd_http_le_one (c : PantryCmd) : PantryCmd.httpRequests c ≤ 1 := by
  cases c <;> simp [PantryCmd.httpRequests]

lemma ocrCmd_http_le_one (c : OcrCmd) : OcrCmd.httpRequests c ≤ 1 := by
  cases c <;> simp [OcrCmd.httpRequests]

lemma settingsCmd_http_le_one (c : SettingsCmd) : SettingsCmd.httpRequests c ≤ 1 := by
  cases c <;> simp [SettingsCmd.httpRequests]

/-- C3: for every page and every message, one invocation of the page update
returns a command that performs at most one outgoing HTTP request (the
no-command case is `Cmd.none` with zero requests). -/
theorem c3_at_most_one_http_request_per_update :
    (∀ state message, DashCmd.httpRequests (dashboardUpdate state message).snd ≤ 1) ∧
    (∀ state message now,
        ChatCmd.httpRequests (chatUpdate state message now).snd ≤ 1) ∧
    (∀ state message, PantryCmd.httpRequests (pantryUpdate state message).snd ≤ 1) ∧
    (∀ state message, OcrCmd.httpRequests (ocrUpdate state message).snd ≤ 1) ∧
    (∀ state message settings saveResult,
        SettingsCmd.httpRequests
          (settingsUpdate state message settings saveResult).cmd ≤ 1) :=
  ⟨fun state message => dashCmd_http_le_one _,
   fun state message now => chatCmd_http_le_one _,
   fun state message => pantryCmd_http_le_one _,
   fun state message => ocrCmd_http_le_one _,
   fun state message settings saveResult => settingsCmd_http_le_one _⟩

/-- C4 counterexample: the dashboard weather call completes with an error,
yet the completion does not clear the loading flag — the error completion
re-enters `RefreshWeather`, which keeps `loading = true` (and the dashboard
state has no error field to record an error string in). -/
theorem c4_counterexample_dashboard_error_completion :
    (dashboardUpdate { weather := none, recent_activities := [], loading := true }
        (dashboardOnWeather
          (Except.error (ApiError.RequestFailed "connection refused")))).fst.loading
      = true := rfl

/-- C4 amended: every page that issues an HTTP call sets its loading flag
before the call and a successful completion clears it, but the error paths
are page-specific rather than one generic pattern: OCR records the rendered
error string and clears loading; chat appends a chat message rendering the
error and clears loading; pantry delivers the empty item list, clearing
loading without recording any error; dashboard re-dispatches
`RefreshWeather`, leaving loading set and recording nothing. -/
theorem c4_amended_per_page_error_handling :
    (∀ state, (dashboardUpdate state DashboardMessage.RefreshWeather).fst.loading
        = true) ∧
    (∀ state, (dashboardUpdate state DashboardMessage.RefreshWeather).snd
        = DashCmd.getWeather) ∧
    (∀ state, (pantryUpdate state PantryMessage.LoadItems).fst.loading = true) ∧
    (∀ state, (pantryUpdate state PantryMessage.LoadItems).snd
        = PantryCmd.getFoodItems) ∧
    (∀ state img, (ocrUpdate state (OCRMessage.ProcessImage img)).fst.loading
        = true) ∧
    (∀ state img, (ocrUpdate state (OCRMessage.ProcessImage img)).fst.error
        = none) ∧
    (∀ state img, (ocrUpdate state (OCRMessage.ProcessImage img)).snd
        = OcrCmd.uploadReceipt img) ∧
    (∀ state now, strTrimIsEmpty state.input_text = false → state.loading = false →
        (chatUpdate state ChatMessage.SendMessage now).fst.loading = true) ∧
    (∀ state w, (dashboardUpdate state (DashboardMessage.WeatherLoaded w)).fst.loading
        = false) ∧
    (∀ state items,
        (pantryUpdate state (PantryMessage.ItemsLoaded items)).fst.loading = false) ∧
    (∀ state r, (ocrUpdate state (OCRMessage.ResultReceived r)).fst.loading
        = false) ∧
    (∀ state r now,
        (chatUpdate state (ChatMessage.MessageReceived r) now).fst.loading = false) ∧
    (∀ e, dashboardOnWeather (Except.error e) = DashboardMessage.RefreshWeather) ∧
    (∀ state e,
        (dashboardUpdate state (dashboardOnWeather (Except.error e))).fst.loading
          = true) ∧
    (∀ e, pantryOnItems (Except.error e) = PantryMessage.ItemsLoaded []) ∧
    (∀ state e, (pantryUpdate state (pantryOnItems (Except.error e))).fst
        = { state with items := [], loading := false }) ∧
    (∀ e, ocrOnUpload (Except.error e) = OCRMessage.Error (ApiError.display e)) ∧
    (∀ state e, (ocrUpdate state (ocrOnUpload (Except.error e))).fst.error
        = some (ApiError.display e)) ∧
    (∀ state e, (ocrUpdate state (ocrOnUpload (Except.error e))).fst.loading
        = false) ∧
    (∀ e, chatOnResult (Except.error e) = ChatMessage.MessageReceived
        { response := "Error: " ++ ApiError.display e, agent_used := "error",
          confidence := 0.0 }) ∧
    (∀ state e now,
        (chatUpdate state (chatOnResult (Except.error e)) now).fst.loading
          = false) := by
  refine ⟨fun state => rfl, fun state => rfl, fun state => rfl, fun state => rfl,
    fun state img => rfl, fun state img => rfl, fun state img => rfl,
    ?_,
    fun state w => rfl, fun state items => rfl, fun state r => rfl,
    fun state r now => rfl,
    fun e => rfl, fun state e => rfl, fun e => rfl, fun state e => rfl,
    fun e => rfl, fun state e => rfl, fun state e => rfl, fun e => rfl,
    fun state e now => rfl⟩
  intro state now h1 h2
  simp [chatUpdate, h1, h2]

/-- C5: the top-level update routes each page-tagged message to exactly that
page update: the routed page state and command are those of the page update,
every other page state is unchanged, the current page is unchanged, and for
every page message except Settings messages the application settings are
unchanged. -/
theorem c5_page_message_routing_frame :
    (∀ app m now sr,
        (appUpdate app (Message.Dashboard m) now sr).fst.state.dashboard_state
            = (dashboardUpdate app.state.dashboard_state m).fst ∧
        (appUpdate app (Message.Dashboard m) now sr).snd
            = AppCmd.dashboard (dashboardUpdate app.state.dashboard_state m).snd ∧
        (appUpdate app (Message.Dashboard m) now sr).fst.state.chat_state
            = app.state.chat_state ∧
        (appUpdate app (Message.Dashboard m) now sr).fst.state.pantry_state
            = app.state.pantry_state ∧
        (appUpdate app (Message.Dashboard m) now sr).fst.state.ocr_state
            = app.state.ocr_state ∧
        (appUpdate app (Message.Dashboard m) now sr).fst.state.settings_state
            = app.state.settings_state ∧
        (appUpdate app (Message.Dashboard m) now sr).fst.state.current_page
            = app.state.current_page ∧
        (appUpdate app (Message.Dashboard m) now sr).fst.state.settings
            = app.state.settings) ∧
    (∀ app m now sr,
        (appUpdate app (Message.Chat m) now sr).fst.state.chat_state
            = (chatUpdate app.state.chat_state m now).fst ∧
        (appUpdate app (Message.Chat m) now sr).snd
            = AppCmd.chat (chatUpdate app.state.chat_state m now).snd ∧
        (appUpdate app (Message.Chat m) now sr).fst.state.dashboard_state
            = app.state.dashboard_state ∧
        (appUpdate app (Message.Chat m) now sr).fst.state.pantry_state
            = app.state.pantry_state ∧
        (appUpdate app (Message.Chat m) now sr).fst.state.ocr_state
            = app.state.ocr_state ∧
        (appUpdate app (Message.Chat m) now sr).fst.state.settings_state
            = app.state.settings_state ∧
        (appUpdate app (Message.Chat m) now sr).fst.state.current_page
            = app.state.current_page ∧
        (appUpdate app (Message.Chat m) now sr).fst.state.settings
            = app.state.settings) ∧
    (∀ app m now sr,
        (appUpdate app (Message.Pantry m) now sr).fst.state.pantry_state
            = (pantryUpdate app.state.pantry_state m).fst ∧
        (appUpdate app (Message.Pantry m) now sr).snd
            = AppCmd.pantry (pantryUpdate app.state.pantry_state m).snd ∧
        (appUpdate app (Message.Pantry m) now sr).fst.state.dashboard_state
            = app.state.dashboard_state ∧
        (appUpdate app (Message.Pantry m) now sr).fst.state.chat_state
            = app.state.chat_state ∧
        (appUpdate app (Message.Pantry m) now sr).fst.state.ocr_state
            = app.state.ocr_state ∧
        (appUpdate app (Message.Pantry m) now sr).fst.state.settings_state
            = app.state.settings_state ∧
        (appUpdate app (Message.Pantry m) now sr).fst.state.current_page
            = app.state.current_page ∧
        (appUpdate app (Message.Pantry m) now sr).fst.state.settings
            = app.state.settings) ∧
    (∀ app m now sr,
        (appUpdate app (Message.OCR m) now sr).fst.state.ocr_state
            = (ocrUpdate app.state.ocr_state m).fst ∧
        (appUpdate app (Message.OCR m) now sr).snd
            = AppCmd.ocr (ocrUpdate app.state.ocr_state m).snd ∧
        (appUpdate app (Message.OCR m) now sr).fst.state.dashboard_state
            = app.state.dashboard_state ∧
        (appUpdate app (Message.OCR m) now sr).fst.state.chat_state
            = app.state.chat_state ∧
        (appUpdate app (Message.OCR m) now sr).fst.state.pantry_state
            = app.state.pantry_state ∧
        (appUpdate app (Message.OCR m) now sr).fst.state.settings_state
            = app.state.settings_state ∧
        (appUpdate app (Message.OCR m) now sr).fst.state.current_page
            = app.state.current_page ∧
        (appUpdate app (Message.OCR m) now sr).fst.state.settings
            = app.state.settings) ∧
    (∀ app m now sr,
        (appUpdate app (Message.Settings m) now sr).fst.state.settings_state
            = (settingsUpdate app.state.settings_state m app.state.settings sr).state ∧
        (appUpdate app (Message.Settings m) now sr).fst.state.settings
            = (settingsUpdate app.state.settings_state m app.state.settings sr).settings ∧
        (appUpdate app (Message.Settings m) now sr).snd
            = AppCmd.settings
                (settingsUpdate app.state.settings_state m app.state.settings sr).cmd ∧
        (appUpdate app (Message.Settings m) now sr).fst.state.dashboard_state
            = app.state.dashboard_state ∧
        (appUpdate app (Message.Settings m) now sr).fst.state.chat_state
            = app.state.chat_state ∧
        (appUpdate app (Message.Settings m) now sr).fst.state.pantry_state
            = app.state.pantry_state ∧
        (appUpdate app (Message.Settings m) now sr).fst.state.ocr_state
            = app.state.ocr_state ∧
        (appUpdate app (Message.Settings m) now sr).fst.state.current_page
            = app.state.current_page) :=
  ⟨fun app m now sr => ⟨rfl, rfl, rfl, rfl, rfl, rfl, rfl, rfl⟩,
   fun app m now sr => ⟨rfl, rfl, rfl, rfl, rfl, rfl, rfl, rfl⟩,
   fun app m now sr => ⟨rfl, rfl, rfl, rfl, rfl, rfl, rfl, rfl⟩,
   fun app m now sr => ⟨rfl, rfl, rfl, rfl, rfl, rfl, rfl, rfl⟩,
   fun app m now sr => ⟨rfl, rfl, rfl, rfl, rfl, rfl, rfl, rfl⟩⟩

/-- C6: a `SaveSettings` handled while an edited settings struct is present
makes the live settings equal to the edited settings and writes exactly that
value to the config store; when the store write fails, the error is only
logged and the live in-memory settings still hold the edited values. -/
theorem c6_save_settings_applies_and_persists :
    ∀ (st : SettingsState) (e settings : AppSettings) (errMsg : String),
      (settingsUpdate { st with edited_settings := some e }
          SettingsMessage.SaveSettings settings (Except.ok ())).settings = e ∧
      (settingsUpdate { st with edited_settings := some e }
          SettingsMessage.SaveSettings settings (Except.ok ())).writes = [e] ∧
      (settingsUpdate { st with edited_settings := some e }
          SettingsMessage.SaveSettings settings (Except.ok ())).log = [] ∧
      (settingsUpdate { st with edited_settings := some e }
          SettingsMessage.SaveSettings settings (Except.error errMsg)).settings = e ∧
      (settingsUpdate { st with edited_settings := some e }
          SettingsMessage.SaveSettings settings (Except.error errMsg)).writes = [e] ∧
      (settingsUpdate { st with edited_settings := some e }
          SettingsMessage.SaveSettings settings (Except.error errMsg)).log
        = ["Failed to save settings: " ++ errMsg] ∧
      (settingsUpdate { st with edited_settings := some e }
          SettingsMessage.SaveSettings settings (Except.error errMsg)).state
        = (settingsUpdate { st with edited_settings := some e }
            SettingsMessage.SaveSettings settings (Except.ok ())).state ∧
      (settingsUpdate { st with edited_settings := some e }
          SettingsMessage.SaveSettings settings
            (Except.error errMsg)).state.edited_settings = some e :=
  fun st e settings errMsg => ⟨rfl, rfl, rfl, rfl, rfl, rfl, rfl, rfl⟩

/-- C7: `format_date` is total — an input that parses as a `%Y-%m-%d` date
is returned rendered in the `%d %b %Y` format, and every other input is
returned unchanged (two concrete instances included). -/
theorem c7_format_date_total :
    (∀ s d, parse_from_str_ymd s = some d → format_date s = formatPretty d) ∧
    (∀ s, parse_from_str_ymd s = none → format_date s = s) ∧
    format_date "2023-01-05" = "05 Jan 2023" ∧
    format_date "not a date" = "not a date" ∧
    format_date "+12345-01-05" = "05 Jan +12345" ∧
    format_date "\x0C2023-01-05" = "05 Jan 2023" := by
  refine ⟨?_, ?_, rfl, rfl, rfl, rfl⟩
  · intro s d h
    simp [format_date, h]
  · intro s h
    simp [format_date, h]

/-- C8: a `SendMessage` on a blank (after trimming) input or while loading
leaves the chat state unchanged and issues no command — so at most one chat
request is in flight at a time — and otherwise it appends exactly one user
message, sets loading and clears the input text. -/
theorem c8_chat_send_message_guard :
    (∀ state now,
        (strTrimIsEmpty state.input_text = true ∨ state.loading = true) →
        chatUpdate state ChatMessage.SendMessage now = (state, ChatCmd.none)) ∧
    (∀ (state : ChatState) (now : Nat),
        strTrimIsEmpty state.input_text = false → state.loading = false →
        (chatUpdate state ChatMessage.SendMessage now).fst.messages
            = state.messages ++
                [{ content := state.input_text, is_user := true, timestamp := now,
                   agent := none }] ∧
        (chatUpdate state ChatMessage.SendMessage now).fst.loading = true ∧
        (chatUpdate state ChatMessage.SendMessage now).fst.input_text = "") := by
  constructor
  · intro state now h
    rcases h with h | h <;> simp [chatUpdate, h]
  · intro state now h1 h2
    refine ⟨?_, ?_, ?_⟩ <;> simp [chatUpdate, h1, h2]

/-- C9: the pantry load completion maps every error to `ItemsLoaded(vec![])`,
so a failed call makes the items empty and loading false, leaves the rest of
the pantry state untouched, records no error, and is indistinguishable from
a successful call that returned the empty list. -/
theorem c9_pantry_error_indistinguishable_from_empty :
    (∀ e, pantryOnItems (Except.error e) = PantryMessage.ItemsLoaded []) ∧
    (∀ (state : PantryState) e,
        (pantryUpdate state (pantryOnItems (Except.error e))).fst
          = { state with items := [], loading := false }) ∧
    (∀ state e, pantryUpdate state (pantryOnItems (Except.error e))
        = pantryUpdate state (pantryOnItems (Except.ok []))) ∧
    (∀ state e, (pantryUpdate state (pantryOnItems (Except.error e))).snd
        = PantryCmd.none) :=
  ⟨fun e => rfl, fun state e => rfl, fun state e => rfl, fun state e => rfl⟩

/-- C10: the dashboard weather completion discards every error and
re-dispatches `RefreshWeather`, which immediately re-issues the weather
request with loading set; the only dashboard message that makes loading
false is a successful `WeatherLoaded`. -/
theorem c10_dashboard_error_retry_loop :
    (∀ e, dashboardOnWeather (Except.error e) = DashboardMessage.RefreshWeather) ∧
    (∀ (state : DashboardState) e,
        dashboardUpdate state (dashboardOnWeather (Except.error e))
          = ({ state with loading := true }, DashCmd.getWeather)) ∧
    (∀ state, (dashboardUpdate state DashboardMessage.RefreshWeather).fst.loading
        = true) ∧
    (∀ state, (dashboardUpdate state DashboardMessage.RefreshWeather).snd
        = DashCmd.getWeather) ∧
    (∀ state message, state.loading = true →
        (dashboardUpdate state message).fst.loading = false →
        ∃ w, message = DashboardMessage.WeatherLoaded w) := by
  refine ⟨fun e => rfl, fun state e => rfl, fun state => rfl, fun state => rfl, ?_⟩
  intro state message h1 h2
  cases message with
  | WeatherLoaded w => exact ⟨w, rfl⟩
  | RefreshWeather => simp [dashboardUpdate] at h2
  | NavigateToPage p =>
    simp only [dashboardUpdate] at h2
    rw [h1] at h2
    exact Bool.noConfusion h2

example :
    get_weather (fun _ => Except.error "bad json") (SendResult.err "timed out")
      = Except.error (ApiError.RequestFailed "timed out") := rfl

example :
    get_weather (fun _ => Except.error "bad json")
        (SendResult.ok { status := 503, body := "oops" })
      = Except.error (ApiError.HttpError 503) := rfl

example :
    get_weather (fun _ => Except.error "bad json")
        (SendResult.ok { status := 200, body := "oops" })
      = Except.error (ApiError.ParseFailed "bad json") := rfl

example :
    get_pantry_products (fun _ => Except.ok [])
        (SendResult.ok { status := 200, body := "[]" })
      = Except.ok [] := rfl

example :
    chatUpdate { input_text := "hi", messages := [], loading := false }
        ChatMessage.SendMessage 7
      = ({ input_text := "", loading := true,
           messages := [{ content := "hi", is_user := true, timestamp := 7,
                          agent := none }] },
         ChatCmd.sendChatMessage "hi" none) := rfl

example :
    chatUpdate { input_text := "  ", messages := [], loading := false }
        ChatMessage.SendMessage 7
      = ({ input_text := "  ", messages := [], loading := false },
         ChatCmd.none) := rfl

example :
    chatUpdate { input_text := "\x0B", messages := [], loading := false }
        ChatMessage.SendMessage 7
      = ({ input_text := "\x0B", messages := [], loading := false },
         ChatCmd.none) := rfl

example :
    (settingsUpdate { edited_settings := some AppSettings.default, saving := false }
        SettingsMessage.SaveSettings
        { AppSettings.default with backend_url := "http://old" }
        (Except.error "disk full")).settings
      = AppSettings.default := rfl

example :
    (ocrUpdate { result := none, image_path := none, loading := true, error := none }
        (ocrOnUpload (Except.error (ApiError.HttpError 500)))).fst
      = { result := none, image_path := none, loading := false,
          error := some "HTTP error: 500" } := rfl

end MyAppAssistant
